import Mathlib

/-!
Verification of the movie-orchestrator agent (src/orchestrator.py and
src/payments/ensure_balance.py).

The Python code is embedded shallowly: every handler is a pure Lean
function from its external inputs (the values the store, the payments
ledger and the remote agents would return, passed in as oracles) to the
ordered list of boundary effects it performs together with its outcome.
A Python exception that escapes a function is `Except.error`; a normal
return is `Except.ok`.  JSON decoding is performed by Python's standard
library, not by this repository, so the composite double `json.loads` of
`input_artifacts` is modelled as an oracle argument; everything else is
translated line by line from the source.
-/

namespace MovieOrchestrator

/-- An artifact list produced by one delegate task (a JSON array of
artifact values in the source; the values themselves are opaque). -/
abbrev Artifacts := List String

/-- A character is an ordered attribute mapping: Python dicts preserve
insertion order, which `generate_text_to_image_prompt` relies on. -/
abbrev Character := List (String × String)

/-- A step record as loaded from the external store; fields are the keys
`src/orchestrator.py` reads. -/
structure Step where
  step_id : String
  task_id : String
  did : String
  name : String
  predecessor : Option String
  is_last : Bool
  step_status : String
  input_query : String
  input_artifacts : Option String
  deriving Repr, DecidableEq

/-- One of the successor step records batched into `create_steps` by
`handle_init_step` (src/orchestrator.py lines 70-74). -/
structure NewStep where
  step_id : String
  task_id : String
  predecessor : String
  name : String
  is_last : Bool
  deriving Repr, DecidableEq

/-- The partial step record passed to `update_step`. -/
structure StepPatch where
  step_status : String
  output : Option String
  output_artifacts : Option (List Artifacts)
  deriving Repr, DecidableEq

/-- A boundary effect performed by the orchestrator, in program order. -/
inductive Effect where
  | getStep (step_id : String)
  | getPlanBalance (plan_did : String)
  | orderPlan (plan_did : String)
  | createSteps (did task_id : String) (steps : List NewStep)
  | updateStep (did task_id step_id : String) (patch : StepPatch)
  | createTask (agent_did query name : String)
  | logTask (task_id level message : String) (task_status : Option String)
  | logLocal (level message : String)
  deriving Repr, DecidableEq

/-- Store mutations in the sense of the router idempotence property:
`create_steps`, `update_step` and `create_task` calls. -/
def Effect.isStoreWrite : Effect → Bool
  | Effect.createSteps _ _ _ => true
  | Effect.updateStep _ _ _ _ => true
  | Effect.createTask _ _ _ => true
  | _ => false

/-- Recognizes `update_step` effects. -/
def Effect.isUpdateStep : Effect → Bool
  | Effect.updateStep _ _ _ _ => true
  | _ => false

/-- Recognizes `get_plan_balance` effects. -/
def Effect.isGetPlanBalance : Effect → Bool
  | Effect.getPlanBalance _ => true
  | _ => false

/-- The `update_step` calls within a trace, in order. -/
def stepUpdates (effs : List Effect) : List Effect :=
  effs.filter Effect.isUpdateStep

/-- The store mutations within a trace, in order. -/
def storeWrites (effs : List Effect) : List Effect :=
  effs.filter Effect.isStoreWrite

/-- Configuration value loaded from the environment (src/config/env.py);
modelled as an abstract constant string. -/
def SCRIPT_GENERATOR_DID : String := "did:nv:script-generator"

/-- Configuration value loaded from the environment. -/
def CHARACTER_EXTRACTOR_DID : String := "did:nv:character-extractor"

/-- Configuration value loaded from the environment. -/
def IMAGE_GENERATOR_DID : String := "did:nv:image-generator"

/-- Configuration value loaded from the environment. -/
def THIS_PLAN_DID : String := "did:nv:this-plan"

/-- Configuration value loaded from the environment. -/
def IMAGE_GENERATOR_PLAN_DID : String := "did:nv:image-generator-plan"

/-- `generate_text_to_image_prompt` (src/orchestrator.py lines 162-171):
joins the values of all attributes except `name` with ", ", in the
dict's insertion order. -/
def generate_text_to_image_prompt (character : Character) : String :=
  String.intercalate ", "
    ((character.filter fun kv => kv.1 != "name").map fun kv => kv.2)

/-- `ensure_sufficient_balance` (src/payments/ensure_balance.py lines 3-14).
`balance` is the ledger's answer to `get_plan_balance` and
`order_success` the `success` flag `order_plan` would return; the
function performs the balance read, conditionally the order, and returns
its effect trace with the boolean result. -/
def ensure_sufficient_balance (plan_did : String) (balance : Int)
    (order_success : Bool) (required_balance : Int) : List Effect × Bool :=
  let eff := [Effect.logLocal "info" ("Checking balance for plan " ++ plan_did ++ "..."),
              Effect.getPlanBalance plan_did]
  if balance < required_balance then
    let eff := eff ++
      [Effect.logLocal "info" ("Balance insufficient for plan " ++ plan_did ++ ". Ordering credits..."),
       Effect.orderPlan plan_did]
    if order_success then (eff, true)
    else (eff ++ [Effect.logLocal "error" ("Failed to order credits for plan " ++ plan_did ++ ".")], false)
  else (eff, true)

/-- `handle_init_step` (src/orchestrator.py lines 58-80).  The three fresh
identifiers produced by `generate_step_id` are passed in as arguments. -/
def handle_init_step (script_step_id character_step_id image_step_id : String)
    (step : Step) : List Effect × Except String Unit :=
  let steps := [NewStep.mk script_step_id step.task_id step.step_id "generateScript" false,
                NewStep.mk character_step_id step.task_id script_step_id "extractCharacters" false,
                NewStep.mk image_step_id step.task_id character_step_id "generateImagesForCharacters" true]
  ([Effect.createSteps step.did step.task_id steps,
    Effect.logTask step.task_id "info" "Steps created successfully." none,
    Effect.updateStep step.did step.task_id step.step_id
      (StepPatch.mk "Completed" (some step.input_query) none)],
   Except.ok ())

/-- `handle_step_with_agent` (src/orchestrator.py lines 83-116).
`balance` and `order_success` feed the balance gate; `create_status` is
the `status_code` of the `create_task` result (the source reads it with
`getattr(result, "status_code", 0)`). -/
def handle_step_with_agent (balance : Int) (order_success : Bool)
    (create_status : Nat) (step : Step)
    (agent_did agent_name plan_did : String) : List Effect × Except String Unit :=
  let bal := ensure_sufficient_balance plan_did balance order_success 1
  if bal.2 = false then (bal.1, Except.ok ())
  else
    let effs := bal.1 ++ [Effect.createTask agent_did step.input_query step.name]
    if create_status == 201 then
      (effs ++ [Effect.logTask step.task_id "info" "Task created successfully." none], Except.ok ())
    else
      (effs ++ [Effect.logTask step.task_id "error"
        ("Error creating task for " ++ agent_name) (some "Failed")], Except.ok ())

/-- `query_agent_with_prompt` (src/orchestrator.py lines 173-215), the
synchronous skeleton of one delegate: it creates the remote task, raises
on a non-201 creation result before ever awaiting the future, and
otherwise suspends on the future, whose eventual resolution
(`future_outcome`) is driven by the callback machinery modelled below. -/
def query_agent_with_prompt (create_status : Nat)
    (future_outcome : Except String Artifacts) (step : Step)
    (prompt agent_name : String) : List Effect × Except String Artifacts :=
  let effs := [Effect.createTask IMAGE_GENERATOR_DID prompt step.name]
  if create_status != 201 then
    (effs, Except.error ("Error creating task for " ++ agent_name))
  else
    (effs, future_outcome)

/-- The `for character in characters_json` loop of
`handle_image_generation_for_characters` (src/orchestrator.py lines
137-139): one delegate per character, in input order; `i` is the
position of the first character of `l` in the original list, so that the
per-delegate oracles `create_status` and `future_outcome` are indexed by
input position. -/
def launch_delegates (create_status : Nat → Nat)
    (future_outcome : Nat → Except String Artifacts) (step : Step) :
    Nat → List Character → List (List Effect × Except String Artifacts)
  | _, [] => []
  | i, c :: l =>
    query_agent_with_prompt (create_status i) (future_outcome i) step
        (generate_text_to_image_prompt c) "Image Generator" ::
      launch_delegates create_status future_outcome step (i + 1) l

/-- `asyncio.gather(*tasks, return_exceptions=False)`: succeeds with the
list of results in input order when every task succeeds, and raises when
any task raises.  Which exception is propagated first is
timing-dependent in Python; the model takes the leftmost. -/
def gather : List (Except String Artifacts) → Except String (List Artifacts)
  | [] => Except.ok []
  | r :: rs =>
    match r with
    | Except.error e => Except.error e
    | Except.ok a =>
      match gather rs with
      | Except.error e => Except.error e
      | Except.ok as => Except.ok (a :: as)

/-- `handle_image_generation_for_characters` (src/orchestrator.py lines
120-159).  `parse_input_artifacts` is the composite of the two
`json.loads` calls on `step.get("input_artifacts", "[]")` (standard
library behaviour, passed as an oracle); note it runs before the `try`
block, as does the balance gate, so failures there escape the handler.
Only the `gather`-to-`update_step` region is inside the `try`. -/
def handle_image_generation_for_characters
    (parse_input_artifacts : String → Except String (List Character))
    (balance : Int) (order_success : Bool)
    (create_status : Nat → Nat)
    (future_outcome : Nat → Except String Artifacts)
    (step : Step) : List Effect × Except String Unit :=
  match parse_input_artifacts (step.input_artifacts.getD "[]") with
  | Except.error e => ([], Except.error e)
  | Except.ok characters_json =>
    let bal := ensure_sufficient_balance IMAGE_GENERATOR_PLAN_DID balance
      order_success (Int.ofNat characters_json.length)
    if bal.2 = false then
      (bal.1, Except.error "Insufficient balance for image generation tasks.")
    else
      let delegates := launch_delegates create_status future_outcome step 0 characters_json
      let launch_effects := (delegates.map fun d => d.1).flatten
      match gather (delegates.map fun d => d.2) with
      | Except.ok artifacts =>
        (bal.1 ++ launch_effects ++
          [Effect.logTask step.task_id "info" "All image tasks completed." (some "Completed"),
           Effect.updateStep step.did step.task_id step.step_id
             (StepPatch.mk "Completed" (some "All image tasks completed.") (some artifacts))],
         Except.ok ())
      | Except.error e =>
        (bal.1 ++ launch_effects ++
          [Effect.updateStep step.did step.task_id step.step_id
             (StepPatch.mk "Failed" (some "One or more image tasks failed.") none),
           Effect.logTask step.task_id "error" ("Error during image tasks: " ++ e) (some "Failed")],
         Except.ok ())

/-- The external world as `OrchestratorAgent.run` observes it: the step
store, the three fresh step identifiers, the payments ledger, the
`create_task` acceptance codes, and — for the image fan-out — the parse
oracle and the per-delegate oracles. -/
structure Env where
  get_step : String → Except String Step
  fresh_ids : String × String × String
  plan_balance : String → Int
  order_plan_success : String → Bool
  agent_create_status : String → Nat
  parse_input_artifacts : String → Except String (List Character)
  image_create_status : Nat → Nat
  image_future_outcome : Nat → Except String Artifacts

/-- `OrchestratorAgent.run` (src/orchestrator.py lines 20-55): logs the
event, loads the step, logs receipt, gates on `Pending`, and dispatches
by name.  It has no exception handler of its own, so an error from
`get_step` or from a dispatched handler is the result of `run`. -/
def run (env : Env) (notified_step_id : String) : List Effect × Except String Unit :=
  let eff0 := [Effect.logLocal "info" ("Received event: " ++ notified_step_id),
               Effect.getStep notified_step_id]
  match env.get_step notified_step_id with
  | Except.error e => (eff0, Except.error e)
  | Except.ok step =>
    let eff1 := eff0 ++ [Effect.logTask step.task_id "info"
      ("Processing Step " ++ step.step_id ++ " [" ++ step.step_status ++ "]: " ++ step.input_query)
      (some "Pending")]
    if step.step_status != "Pending" then
      (eff1 ++ [Effect.logLocal "warning"
        (step.task_id ++ " :: Step " ++ step.step_id ++ " is not pending. Skipping.")],
       Except.ok ())
    else if step.name == "init" then
      let r := handle_init_step env.fresh_ids.1 env.fresh_ids.2.1 env.fresh_ids.2.2 step
      (eff1 ++ r.1, r.2)
    else if step.name == "generateScript" then
      let r := handle_step_with_agent (env.plan_balance THIS_PLAN_DID)
        (env.order_plan_success THIS_PLAN_DID)
        (env.agent_create_status SCRIPT_GENERATOR_DID) step
        SCRIPT_GENERATOR_DID "Script Generator" THIS_PLAN_DID
      (eff1 ++ r.1, r.2)
    else if step.name == "extractCharacters" then
      let r := handle_step_with_agent (env.plan_balance THIS_PLAN_DID)
        (env.order_plan_success THIS_PLAN_DID)
        (env.agent_create_status CHARACTER_EXTRACTOR_DID) step
        CHARACTER_EXTRACTOR_DID "Character Extractor" THIS_PLAN_DID
      (eff1 ++ r.1, r.2)
    else if step.name == "generateImagesForCharacters" then
      let r := handle_image_generation_for_characters env.parse_input_artifacts
        (env.plan_balance IMAGE_GENERATOR_PLAN_DID)
        (env.order_plan_success IMAGE_GENERATOR_PLAN_DID)
        env.image_create_status env.image_future_outcome step
      (eff1 ++ r.1, r.2)
    else
      (eff1 ++ [Effect.logLocal "warning"
        ("Unrecognized step name: " ++ step.name ++ ". Skipping.")],
       Except.ok ())

/-- The state of the `asyncio` future created in `query_agent_with_prompt`
(src/orchestrator.py line 187): unset, settled with a result, or settled
with an exception. -/
inductive FutureState where
  | unset
  | settled_ok (artifacts : Artifacts)
  | settled_err (msg : String)
  deriving Repr, DecidableEq

/-- `Future.set_result`: settles an unset future; raises
`InvalidStateError` if the future is already settled (the source never
checks `done()` first). -/
def future_set_result (fs : FutureState) (a : Artifacts) : Except String FutureState :=
  match fs with
  | FutureState.unset => Except.ok (FutureState.settled_ok a)
  | _ => Except.error "InvalidStateError"

/-- `Future.set_exception`: same single-assignment discipline. -/
def future_set_exception (fs : FutureState) (msg : String) : Except String FutureState :=
  match fs with
  | FutureState.unset => Except.ok (FutureState.settled_err msg)
  | _ => Except.error "InvalidStateError"

/-- One callback event from the remote task, as decoded by
`json.loads(data)` in the delegate's `task_callback`. -/
structure TaskEvent where
  task_id : String
  task_status : Option String
  message : String
  deriving Repr, DecidableEq

/-- The delegate's `task_callback` (src/orchestrator.py lines 189-203),
acting on the current future state: terminal `Completed` validates and
calls `set_result`, terminal `Failed` logs and calls `set_exception`,
anything else only logs.  The `Except` result is the new future state,
or the exception the callback raises. -/
def task_callback (validate_task_fn : String → Artifacts)
    (parent_task_id : String) (ev : TaskEvent) (fs : FutureState) :
    List Effect × Except String FutureState :=
  if ev.task_status == some "Completed" then
    ([], future_set_result fs (validate_task_fn ev.task_id))
  else if ev.task_status == some "Failed" then
    ([Effect.logTask parent_task_id "error" ev.message (some "Failed")],
     future_set_exception fs "Sub-agent task failed")
  else
    ([Effect.logTask parent_task_id "info" ev.message none], Except.ok fs)

/-- Delivery of a sequence of callback events.  An exception raised inside
one callback invocation is surfaced to the event-loop (recorded in the
result list) and leaves the future untouched, exactly as `asyncio`
behaves. -/
def run_callback_seq (validate_task_fn : String → Artifacts)
    (parent_task_id : String) (fs : FutureState) :
    List TaskEvent → FutureState × List (Except String Unit)
  | [] => (fs, [])
  | ev :: evs =>
    match (task_callback validate_task_fn parent_task_id ev fs).2 with
    | Except.ok fs' =>
      let r := run_callback_seq validate_task_fn parent_task_id fs' evs
      (r.1, Except.ok () :: r.2)
    | Except.error e =>
      let r := run_callback_seq validate_task_fn parent_task_id fs evs
      (r.1, Except.error e :: r.2)

/-- `validate_image_generation_task` (src/orchestrator.py lines 244-257):
returns the fetched task's `output_artifacts`, defaulting to the empty
list, without mutating any step. -/
def validate_image_generation_task (task_output_artifacts : Option Artifacts) : Artifacts :=
  task_output_artifacts.getD []

/-! ## Helper lemmas -/

/-- The balance gate succeeds exactly when the balance suffices or the
order succeeds. -/
theorem ensure_balance_result (plan_did : String) (balance required : Int)
    (order_success : Bool) :
    (ensure_sufficient_balance plan_did balance order_success required).2 = true ↔
      (¬ balance < required ∨ order_success = true) := by
  by_cases h : balance < required <;> cases order_success <;>
    simp [ensure_sufficient_balance, h]

/-- The balance gate performs no store mutation. -/
theorem ensure_balance_no_store_writes (plan_did : String)
    (balance required : Int) (order_success : Bool) :
    ((ensure_sufficient_balance plan_did balance order_success required).1.filter
      Effect.isStoreWrite) = [] := by
  by_cases h : balance < required <;> cases order_success <;>
    simp [ensure_sufficient_balance, h, Effect.isStoreWrite]

/-- The balance gate performs no `update_step` call. -/
theorem ensure_balance_no_updates (plan_did : String)
    (balance required : Int) (order_success : Bool) :
    ((ensure_sufficient_balance plan_did balance order_success required).1.filter
      Effect.isUpdateStep) = [] := by
  by_cases h : balance < required <;> cases order_success <;>
    simp [ensure_sufficient_balance, h, Effect.isUpdateStep]

/-- A delegate's immediate effect is exactly one `create_task` call,
whatever the creation result and future outcome. -/
theorem query_agent_with_prompt_effects (create_status : Nat)
    (future_outcome : Except String Artifacts) (step : Step)
    (prompt agent_name : String) :
    (query_agent_with_prompt create_status future_outcome step prompt agent_name).1 =
      [Effect.createTask IMAGE_GENERATOR_DID prompt step.name] := by
  unfold query_agent_with_prompt
  split <;> rfl

/-- `gather` through a successful head. -/
theorem gather_cons_ok (a : Artifacts) (rs : List (Except String Artifacts))
    (as : List Artifacts) (h : gather rs = Except.ok as) :
    gather (Except.ok a :: rs) = Except.ok (a :: as) := by
  simp [gather, h]

/-- `gather` fails when the tail fails, whatever the head is. -/
theorem gather_cons_of_error (r : Except String Artifacts)
    (rs : List (Except String Artifacts)) (e : String)
    (h : gather rs = Except.error e) :
    ∃ e2, gather (r :: rs) = Except.error e2 := by
  cases r with
  | error e3 => exact ⟨e3, rfl⟩
  | ok a => exact ⟨e, by simp [gather, h]⟩

/-- When every launched delegate is accepted (201) and its future resolves
with artifacts, the join succeeds with the artifacts in input order.
`i` is the index offset of the sub-list `l` within the full character
list. -/
theorem launch_delegates_gather_ok (create_status : Nat → Nat)
    (future_outcome : Nat → Except String Artifacts) (step : Step)
    (arts : Nat → Artifacts) :
    ∀ (i : Nat) (l : List Character),
      (∀ j, j < l.length → create_status (i + j) = 201 ∧
        future_outcome (i + j) = Except.ok (arts (i + j))) →
      gather ((launch_delegates create_status future_outcome step i l).map
          fun d => d.2) =
        Except.ok ((List.range l.length).map fun j => arts (i + j)) := by
  intro i l
  induction l generalizing i with
  | nil => intro _; rfl
  | cons c l ih =>
    intro h
    have hcs : create_status i = 201 := by simpa using (h 0 (Nat.succ_pos _)).1
    have hout : future_outcome i = Except.ok (arts i) := by
      simpa using (h 0 (Nat.succ_pos _)).2
    have ih2 := ih (i + 1) (fun j hj => by
      have h3 := h (j + 1) (Nat.succ_lt_succ hj)
      have e1 : i + 1 + j = i + (j + 1) := by omega
      rw [e1]
      exact h3)
    have hq : (query_agent_with_prompt (create_status i) (future_outcome i) step
        (generate_text_to_image_prompt c) "Image Generator").2 =
          Except.ok (arts i) := by
      simp [query_agent_with_prompt, hcs, hout]
    show gather ((query_agent_with_prompt (create_status i) (future_outcome i) step
        (generate_text_to_image_prompt c) "Image Generator" ::
        launch_delegates create_status future_outcome step (i + 1) l).map
          fun d => d.2) = _
    rw [List.map_cons, hq, gather_cons_ok _ _ _ ih2]
    simp only [List.length_cons]
    rw [List.range_succ_eq_map, List.map_cons, List.map_map]
    refine congrArg Except.ok (congrArg₂ List.cons ?_ ?_)
    · simp
    · apply List.map_congr_left
      intro j _
      simp only [Function.comp_apply]
      congr 1
      omega

/-- If some launched delegate fails — creation rejected or future resolved
with an exception — the join fails. -/
theorem launch_delegates_gather_err (create_status : Nat → Nat)
    (future_outcome : Nat → Except String Artifacts) (step : Step) :
    ∀ (i : Nat) (l : List Character) (j : Nat), j < l.length →
      (create_status (i + j) ≠ 201 ∨
        ∃ e, future_outcome (i + j) = Except.error e) →
      ∃ e2, gather ((launch_delegates create_status future_outcome step i l).map
          fun d => d.2) = Except.error e2 := by
  intro i l
  induction l generalizing i with
  | nil => intro j hj; simp at hj
  | cons c l ih =>
    intro j hj hfail
    cases j with
    | zero =>
      simp only [Nat.add_zero] at hfail
      by_cases hcs : create_status i = 201
      · rcases hfail with hne | ⟨e, he⟩
        · exact absurd hcs hne
        · refine ⟨e, ?_⟩
          simp [launch_delegates, query_agent_with_prompt, hcs, he, gather]
      · refine ⟨"Error creating task for " ++ "Image Generator", ?_⟩
        simp [launch_delegates, query_agent_with_prompt, hcs, gather]
    | succ j =>
      have e1 : i + (j + 1) = (i + 1) + j := by omega
      rw [e1] at hfail
      obtain ⟨e2, he2⟩ := ih (i + 1) j (Nat.lt_of_succ_lt_succ hj) hfail
      show ∃ e3, gather ((query_agent_with_prompt (create_status i)
          (future_outcome i) step (generate_text_to_image_prompt c)
          "Image Generator" ::
          launch_delegates create_status future_outcome step (i + 1) l).map
            fun d => d.2) = Except.error e3
      rw [List.map_cons]
      exact gather_cons_of_error _ _ e2 he2

/-- The fan-out launch performs `create_task` calls only — in particular
no `update_step`. -/
theorem launch_delegates_no_updates (create_status : Nat → Nat)
    (future_outcome : Nat → Except String Artifacts) (step : Step) :
    ∀ (i : Nat) (l : List Character),
      ((launch_delegates create_status future_outcome step i l).map
          fun d => d.1).flatten.filter Effect.isUpdateStep = [] := by
  intro i l
  induction l generalizing i with
  | nil => rfl
  | cons c l ih =>
    show ((query_agent_with_prompt (create_status i) (future_outcome i) step
        (generate_text_to_image_prompt c) "Image Generator" ::
        launch_delegates create_status future_outcome step (i + 1) l).map
          fun d => d.1).flatten.filter Effect.isUpdateStep = []
    rw [List.map_cons, query_agent_with_prompt_effects]
    simp [List.filter_append, ih, Effect.isUpdateStep]

/-- Reduction of the image handler when parsing and the balance gate pass
and the join succeeds. -/
theorem handle_image_of_gather_ok
    (parse : String → Except String (List Character)) (balance : Int)
    (order_success : Bool) (create_status : Nat → Nat)
    (future_outcome : Nat → Except String Artifacts) (step : Step)
    (chars : List Character) (artifacts : List Artifacts)
    (hparse : parse (step.input_artifacts.getD "[]") = Except.ok chars)
    (h2 : (ensure_sufficient_balance IMAGE_GENERATOR_PLAN_DID balance
      order_success (Int.ofNat chars.length)).2 = true)
    (hg : gather ((launch_delegates create_status future_outcome step 0 chars).map
      fun d => d.2) = Except.ok artifacts) :
    handle_image_generation_for_characters parse balance order_success
        create_status future_outcome step =
      ((ensure_sufficient_balance IMAGE_GENERATOR_PLAN_DID balance order_success
          (Int.ofNat chars.length)).1 ++
        ((launch_delegates create_status future_outcome step 0 chars).map
          fun d => d.1).flatten ++
        [Effect.logTask step.task_id "info" "All image tasks completed."
          (some "Completed"),
         Effect.updateStep step.did step.task_id step.step_id
           (StepPatch.mk "Completed" (some "All image tasks completed.")
             (some artifacts))],
       Except.ok ()) := by
  have h2a : (ensure_sufficient_balance IMAGE_GENERATOR_PLAN_DID balance
      order_success (chars.length : Int)).2 = true := h2
  unfold handle_image_generation_for_characters
  rw [hparse]
  simp [h2, h2a, hg]

/-- Reduction of the image handler when parsing and the balance gate pass
but the join fails: the exception is caught, the step is updated to
`Failed` with the generic message and no `output_artifacts`. -/
theorem handle_image_of_gather_err
    (parse : String → Except String (List Character)) (balance : Int)
    (order_success : Bool) (create_status : Nat → Nat)
    (future_outcome : Nat → Except String Artifacts) (step : Step)
    (chars : List Character) (e : String)
    (hparse : parse (step.input_artifacts.getD "[]") = Except.ok chars)
    (h2 : (ensure_sufficient_balance IMAGE_GENERATOR_PLAN_DID balance
      order_success (Int.ofNat chars.length)).2 = true)
    (hg : gather ((launch_delegates create_status future_outcome step 0 chars).map
      fun d => d.2) = Except.error e) :
    handle_image_generation_for_characters parse balance order_success
        create_status future_outcome step =
      ((ensure_sufficient_balance IMAGE_GENERATOR_PLAN_DID balance order_success
          (Int.ofNat chars.length)).1 ++
        ((launch_delegates create_status future_outcome step 0 chars).map
          fun d => d.1).flatten ++
        [Effect.updateStep step.did step.task_id step.step_id
           (StepPatch.mk "Failed" (some "One or more image tasks failed.") none),
         Effect.logTask step.task_id "error" ("Error during image tasks: " ++ e)
           (some "Failed")],
       Except.ok ()) := by
  have h2a : (ensure_sufficient_balance IMAGE_GENERATOR_PLAN_DID balance
      order_success (chars.length : Int)).2 = true := h2
  unfold handle_image_generation_for_characters
  rw [hparse]
  simp [h2, h2a, hg]

/-- Once the future is settled, no callback invocation can change it. -/
theorem task_callback_preserves_settled (validate_task_fn : String → Artifacts)
    (parent_task_id : String) (ev : TaskEvent) (fs : FutureState)
    (h : fs ≠ FutureState.unset) :
    ∀ fs2, (task_callback validate_task_fn parent_task_id ev fs).2 =
      Except.ok fs2 → fs2 = fs := by
  intro fs2 h2
  by_cases hc : ev.task_status = some "Completed" <;>
    by_cases hf : ev.task_status = some "Failed" <;>
      cases fs <;>
        simp_all [task_callback, future_set_result, future_set_exception]

/-! ## Claims -/

/-- C5: `handle_init_step` issues one batch `create_steps` call containing
exactly the three successor steps generateScript, extractCharacters,
generateImagesForCharacters, chained by predecessor from the init step,
with `is_last` true only on the last, and then updates the init step to
`Completed` with output equal to its `input_query`. -/
theorem c5_handle_init_step_spec (s1 s2 s3 : String) (step : Step) :
    handle_init_step s1 s2 s3 step =
      ([Effect.createSteps step.did step.task_id
          [NewStep.mk s1 step.task_id step.step_id "generateScript" false,
           NewStep.mk s2 step.task_id s1 "extractCharacters" false,
           NewStep.mk s3 step.task_id s2 "generateImagesForCharacters" true],
        Effect.logTask step.task_id "info" "Steps created successfully." none,
        Effect.updateStep step.did step.task_id step.step_id
          (StepPatch.mk "Completed" (some step.input_query) none)],
       Except.ok ()) := rfl

/-- C8: `generate_text_to_image_prompt` joins the values of all attributes
except `name` with ", " in insertion order; on the spec's examples it
yields "red" and "black, blue". -/
theorem c8_generate_text_to_image_prompt_spec :
    (∀ character : Character,
        generate_text_to_image_prompt character =
          String.intercalate ", "
            ((character.filter fun kv => kv.1 != "name").map fun kv => kv.2)) ∧
    generate_text_to_image_prompt [("name", "Amy"), ("hair", "red")] = "red" ∧
    generate_text_to_image_prompt
        [("name", "Bo"), ("hair", "black"), ("eyes", "blue")] = "black, blue" :=
  ⟨fun _ => rfl, rfl, rfl⟩

/-- C10: `ensure_sufficient_balance` orders the plan exactly when the
fetched balance is strictly below the required units, returns true
exactly when the balance suffices or the order succeeds, and reads the
balance exactly once (no re-read after a successful order). -/
theorem c10_ensure_sufficient_balance_spec (plan_did : String)
    (balance required : Int) (order_success : Bool) :
    ((Effect.orderPlan plan_did ∈
        (ensure_sufficient_balance plan_did balance order_success required).1)
      ↔ balance < required) ∧
    ((ensure_sufficient_balance plan_did balance order_success required).2 = true
      ↔ (required ≤ balance ∨ order_success = true)) ∧
    (((ensure_sufficient_balance plan_did balance order_success required).1.filter
        Effect.isGetPlanBalance).length = 1) := by
  by_cases h : balance < required <;> cases order_success <;>
    simp [ensure_sufficient_balance, h, Effect.isGetPlanBalance]
  all_goals omega

/-- C6: when the plan balance is below the required unit and `order_plan`
fails, `handle_step_with_agent` returns normally without creating any
task and without mutating the step. -/
theorem c6_balance_gate_stalls (balance : Int) (order_success : Bool)
    (create_status : Nat) (step : Step) (agent_did agent_name plan_did : String)
    (hb : balance < 1) (ho : order_success = false) :
    storeWrites (handle_step_with_agent balance order_success create_status step
        agent_did agent_name plan_did).1 = [] ∧
    (handle_step_with_agent balance order_success create_status step
        agent_did agent_name plan_did).2 = Except.ok () := by
  subst ho
  simp [handle_step_with_agent, ensure_sufficient_balance, hb, storeWrites,
    Effect.isStoreWrite]

/-- Witness for C6 at a concrete insufficient-balance environment. -/
theorem c6_balance_gate_stalls_witness :
    storeWrites (handle_step_with_agent (-1) false 201
        (Step.mk "s1" "t1" "d1" "generateScript" none false "Pending" "q" none)
        "agent" "Script Generator" "plan").1 = [] ∧
    (handle_step_with_agent (-1) false 201
        (Step.mk "s1" "t1" "d1" "generateScript" none false "Pending" "q" none)
        "agent" "Script Generator" "plan").2 = Except.ok () :=
  c6_balance_gate_stalls (-1) false 201
    (Step.mk "s1" "t1" "d1" "generateScript" none false "Pending" "q" none)
    "agent" "Script Generator" "plan" (by decide) rfl

/-- C9: a non-201 task-creation result is handled asymmetrically: in
`handle_step_with_agent` (past the balance gate) it only emits an error
log — no `update_step`, normal return, step left as it was — while in
`query_agent_with_prompt` it raises immediately, before and regardless
of the future's eventual outcome. -/
theorem c9_task_creation_rejection_asymmetry (balance : Int)
    (order_success : Bool) (create_status : Nat) (step : Step)
    (agent_did agent_name plan_did prompt delegate_agent_name : String)
    (future_outcome : Except String Artifacts)
    (hb : ¬ balance < 1 ∨ order_success = true)
    (hc : create_status ≠ 201) :
    (stepUpdates (handle_step_with_agent balance order_success create_status step
        agent_did agent_name plan_did).1 = [] ∧
     (handle_step_with_agent balance order_success create_status step
        agent_did agent_name plan_did).2 = Except.ok () ∧
     Effect.logTask step.task_id "error" ("Error creating task for " ++ agent_name)
         (some "Failed") ∈
       (handle_step_with_agent balance order_success create_status step
         agent_did agent_name plan_did).1) ∧
    (query_agent_with_prompt create_status future_outcome step prompt
        delegate_agent_name).2 =
      Except.error ("Error creating task for " ++ delegate_agent_name) := by
  have h2 : (ensure_sufficient_balance plan_did balance order_success 1).2 = true :=
    (ensure_balance_result plan_did balance 1 order_success).2 hb
  refine ⟨⟨?_, ?_, ?_⟩, ?_⟩
  · simp [stepUpdates, handle_step_with_agent, h2, hc, List.filter_append,
      ensure_balance_no_updates, Effect.isUpdateStep]
  · simp [handle_step_with_agent, h2, hc]
  · simp [handle_step_with_agent, h2, hc]
  · simp [query_agent_with_prompt, hc]

/-- Witness for C9 at a concrete rejected task creation. -/
theorem c9_task_creation_rejection_asymmetry_witness :
    (stepUpdates (handle_step_with_agent 5 true 400
        (Step.mk "s1" "t1" "d1" "generateScript" none false "Pending" "q" none)
        "agent" "Script Generator" "plan").1 = [] ∧
     (handle_step_with_agent 5 true 400
        (Step.mk "s1" "t1" "d1" "generateScript" none false "Pending" "q" none)
        "agent" "Script Generator" "plan").2 = Except.ok () ∧
     Effect.logTask "t1" "error" ("Error creating task for " ++ "Script Generator")
         (some "Failed") ∈
       (handle_step_with_agent 5 true 400
         (Step.mk "s1" "t1" "d1" "generateScript" none false "Pending" "q" none)
         "agent" "Script Generator" "plan").1) ∧
    (query_agent_with_prompt 400 (Except.ok ["a1"])
        (Step.mk "s1" "t1" "d1" "generateScript" none false "Pending" "q" none)
        "a prompt" "Image Generator").2 =
      Except.error ("Error creating task for " ++ "Image Generator") :=
  c9_task_creation_rejection_asymmetry 5 true 400
    (Step.mk "s1" "t1" "d1" "generateScript" none false "Pending" "q" none)
    "agent" "Script Generator" "plan" "a prompt" "Image Generator"
    (Except.ok ["a1"]) (Or.inl (by decide)) (by decide)

/-- C1: the fan-out join is all-or-nothing.  Past parsing and the balance
gate: if every launched delegate is accepted and resolves with
artifacts, the only `update_step` sets `Completed` with
`output_artifacts` equal to the per-delegate artifacts in input
character order; if any delegate fails, the only `update_step` sets
`Failed` with the generic message and carries no `output_artifacts` at
all, so no partial results survive. -/
theorem c1_fan_out_join_all_or_nothing
    (parse : String → Except String (List Character)) (balance : Int)
    (order_success : Bool) (create_status : Nat → Nat)
    (future_outcome : Nat → Except String Artifacts) (arts : Nat → Artifacts)
    (step : Step) (chars : List Character)
    (hparse : parse (step.input_artifacts.getD "[]") = Except.ok chars)
    (hbal : ¬ balance < Int.ofNat chars.length ∨ order_success = true) :
    ((∀ j, j < chars.length → create_status j = 201 ∧
        future_outcome j = Except.ok (arts j)) →
      stepUpdates (handle_image_generation_for_characters parse balance
          order_success create_status future_outcome step).1 =
        [Effect.updateStep step.did step.task_id step.step_id
          (StepPatch.mk "Completed" (some "All image tasks completed.")
            (some ((List.range chars.length).map arts)))] ∧
      (handle_image_generation_for_characters parse balance order_success
          create_status future_outcome step).2 = Except.ok ()) ∧
    (∀ j, j < chars.length →
      (create_status j ≠ 201 ∨ ∃ e, future_outcome j = Except.error e) →
      stepUpdates (handle_image_generation_for_characters parse balance
          order_success create_status future_outcome step).1 =
        [Effect.updateStep step.did step.task_id step.step_id
          (StepPatch.mk "Failed" (some "One or more image tasks failed.") none)] ∧
      (handle_image_generation_for_characters parse balance order_success
          create_status future_outcome step).2 = Except.ok ()) := by
  have h2 : (ensure_sufficient_balance IMAGE_GENERATOR_PLAN_DID balance
      order_success (Int.ofNat chars.length)).2 = true :=
    (ensure_balance_result _ _ _ _).2 hbal
  constructor
  · intro hok
    have hg := launch_delegates_gather_ok create_status future_outcome step arts 0
      chars (fun j hj => by simpa using hok j hj)
    have hg2 : gather ((launch_delegates create_status future_outcome step 0
        chars).map fun d => d.2) =
        Except.ok ((List.range chars.length).map arts) := by
      rw [hg]
      refine congrArg Except.ok (List.map_congr_left ?_)
      intro j _
      simp
    rw [handle_image_of_gather_ok parse balance order_success create_status
      future_outcome step chars _ hparse h2 hg2]
    refine ⟨?_, rfl⟩
    unfold stepUpdates
    rw [List.filter_append, List.filter_append,
      ensure_balance_no_updates IMAGE_GENERATOR_PLAN_DID balance
        (Int.ofNat chars.length) order_success,
      launch_delegates_no_updates create_status future_outcome step 0 chars]
    simp [Effect.isUpdateStep]
  · intro j hj hfail
    obtain ⟨e2, hg⟩ := launch_delegates_gather_err create_status future_outcome
      step 0 chars j hj (by simpa using hfail)
    rw [handle_image_of_gather_err parse balance order_success create_status
      future_outcome step chars e2 hparse h2 hg]
    refine ⟨?_, rfl⟩
    unfold stepUpdates
    rw [List.filter_append, List.filter_append,
      ensure_balance_no_updates IMAGE_GENERATOR_PLAN_DID balance
        (Int.ofNat chars.length) order_success,
      launch_delegates_no_updates create_status future_outcome step 0 chars]
    simp [Effect.isUpdateStep]

/-- Witness for C1: two characters, both delegates succeed with `["a1"]`
and `["b1"]`; the step completes with `[["a1"], ["b1"]]` in input
order. -/
theorem c1_fan_out_join_all_or_nothing_witness :
    stepUpdates (handle_image_generation_for_characters
        (fun _ => Except.ok [[("name", "Amy"), ("hair", "red")],
          [("name", "Bo"), ("hair", "black"), ("eyes", "blue")]])
        10 true (fun _ => 201)
        (fun i => Except.ok (if i = 0 then ["a1"] else ["b1"]))
        (Step.mk "s9" "t9" "d9" "generateImagesForCharacters" none true
          "Pending" "q9" (some "payload"))).1 =
      [Effect.updateStep "d9" "t9" "s9"
        (StepPatch.mk "Completed" (some "All image tasks completed.")
          (some [["a1"], ["b1"]]))] ∧
    (handle_image_generation_for_characters
        (fun _ => Except.ok [[("name", "Amy"), ("hair", "red")],
          [("name", "Bo"), ("hair", "black"), ("eyes", "blue")]])
        10 true (fun _ => 201)
        (fun i => Except.ok (if i = 0 then ["a1"] else ["b1"]))
        (Step.mk "s9" "t9" "d9" "generateImagesForCharacters" none true
          "Pending" "q9" (some "payload"))).2 = Except.ok () :=
  (c1_fan_out_join_all_or_nothing
    (fun _ => Except.ok [[("name", "Amy"), ("hair", "red")],
      [("name", "Bo"), ("hair", "black"), ("eyes", "blue")]])
    10 true (fun _ => 201)
    (fun i => Except.ok (if i = 0 then ["a1"] else ["b1"]))
    (fun i => if i = 0 then ["a1"] else ["b1"])
    (Step.mk "s9" "t9" "d9" "generateImagesForCharacters" none true
      "Pending" "q9" (some "payload"))
    [[("name", "Amy"), ("hair", "red")],
      [("name", "Bo"), ("hair", "black"), ("eyes", "blue")]]
    rfl (Or.inr rfl)).1 (fun _ _ => ⟨rfl, rfl⟩)

/-- C2: a notification whose loaded step is not `Pending` is discarded by
the router: the trace is exactly the receipt logs plus the skip warning
— no handler effects, no `create_steps`, `update_step` or `create_task`
— and `run` returns normally. -/
theorem c2_router_discards_non_pending (env : Env) (sid : String) (step : Step)
    (hget : env.get_step sid = Except.ok step)
    (hstatus : step.step_status ≠ "Pending") :
    (run env sid).1 =
      [Effect.logLocal "info" ("Received event: " ++ sid),
       Effect.getStep sid,
       Effect.logTask step.task_id "info"
         ("Processing Step " ++ step.step_id ++ " [" ++ step.step_status ++ "]: "
           ++ step.input_query) (some "Pending"),
       Effect.logLocal "warning"
         (step.task_id ++ " :: Step " ++ step.step_id ++
           " is not pending. Skipping.")] ∧
    storeWrites (run env sid).1 = [] ∧
    (run env sid).2 = Except.ok () := by
  have h1 : run env sid =
      ([Effect.logLocal "info" ("Received event: " ++ sid),
        Effect.getStep sid,
        Effect.logTask step.task_id "info"
          ("Processing Step " ++ step.step_id ++ " [" ++ step.step_status ++ "]: "
            ++ step.input_query) (some "Pending"),
        Effect.logLocal "warning"
          (step.task_id ++ " :: Step " ++ step.step_id ++
            " is not pending. Skipping.")],
       Except.ok ()) := by
    unfold run
    rw [hget]
    simp [hstatus]
  rw [h1]
  exact ⟨rfl, rfl, rfl⟩

/-- Witness for C2: a duplicate notification for an already-`Completed`
step produces zero store writes. -/
theorem c2_router_discards_non_pending_witness :
    storeWrites (run (Env.mk
        (fun _ => Except.ok (Step.mk "s2" "t2" "d2" "generateScript" none false
          "Completed" "q2" none))
        ("a", "b", "c") (fun _ => 10) (fun _ => true) (fun _ => 201)
        (fun _ => Except.ok []) (fun _ => 201) (fun _ => Except.ok []))
        "s2").1 = [] ∧
    (run (Env.mk
        (fun _ => Except.ok (Step.mk "s2" "t2" "d2" "generateScript" none false
          "Completed" "q2" none))
        ("a", "b", "c") (fun _ => 10) (fun _ => true) (fun _ => 201)
        (fun _ => Except.ok []) (fun _ => 201) (fun _ => Except.ok []))
        "s2").2 = Except.ok () :=
  ⟨(c2_router_discards_non_pending (Env.mk
      (fun _ => Except.ok (Step.mk "s2" "t2" "d2" "generateScript" none false
        "Completed" "q2" none))
      ("a", "b", "c") (fun _ => 10) (fun _ => true) (fun _ => 201)
      (fun _ => Except.ok []) (fun _ => 201) (fun _ => Except.ok []))
      "s2" (Step.mk "s2" "t2" "d2" "generateScript" none false "Completed"
        "q2" none) rfl (by decide)).2.1,
   (c2_router_discards_non_pending (Env.mk
      (fun _ => Except.ok (Step.mk "s2" "t2" "d2" "generateScript" none false
        "Completed" "q2" none))
      ("a", "b", "c") (fun _ => 10) (fun _ => true) (fun _ => 201)
      (fun _ => Except.ok []) (fun _ => 201) (fun _ => Except.ok []))
      "s2" (Step.mk "s2" "t2" "d2" "generateScript" none false "Completed"
        "q2" none) rfl (by decide)).2.2⟩

/-- Counterexample to C3 as stated: `run` has no exception handler, so an
error raised by `get_step` is the result of `run` itself — the exception
propagates to the caller instead of being caught and logged. -/
theorem c3_counterexample :
    (run (Env.mk (fun _ => Except.error "boom") ("a", "b", "c") (fun _ => 0)
        (fun _ => false) (fun _ => 0) (fun _ => Except.error "parse")
        (fun _ => 0) (fun _ => Except.error "x")) "s1").2 =
      Except.error "boom" := rfl

/-- C3 (amended): `run` contains no try/except: an error raised while
loading the step propagates out of `run` unchanged, and so does an error
raised by a dispatched handler (shown for the image handler's parse
failure, which escapes it). -/
theorem c3_run_propagates_errors (env : Env) (sid : String) :
    (∀ e, env.get_step sid = Except.error e →
      (run env sid).2 = Except.error e) ∧
    (∀ step e, env.get_step sid = Except.ok step →
      step.step_status = "Pending" →
      step.name = "generateImagesForCharacters" →
      env.parse_input_artifacts (step.input_artifacts.getD "[]") =
        Except.error e →
      (run env sid).2 = Except.error e) := by
  constructor
  · intro e he
    unfold run
    rw [he]
  · intro step e hget hstatus hname hparse
    unfold run
    rw [hget]
    simp [hstatus, hname, handle_image_generation_for_characters, hparse]

/-- Witness for C3 (amended) at a concrete failing `get_step`. -/
theorem c3_run_propagates_errors_witness :
    (run (Env.mk (fun _ => Except.error "store unavailable") ("a", "b", "c")
        (fun _ => 10) (fun _ => true) (fun _ => 201) (fun _ => Except.ok [])
        (fun _ => 201) (fun _ => Except.ok [])) "s3").2 =
      Except.error "store unavailable" :=
  (c3_run_propagates_errors (Env.mk (fun _ => Except.error "store unavailable")
    ("a", "b", "c") (fun _ => 10) (fun _ => true) (fun _ => 201)
    (fun _ => Except.ok []) (fun _ => 201) (fun _ => Except.ok [])) "s3").1
    "store unavailable" rfl

/-- Counterexample to C4 as stated: a balance shortfall (insufficient
balance and failed order) makes `handle_image_generation_for_characters`
raise — the exception escapes the handler, which writes no `Failed`
update (indeed no `update_step` at all): the raise at line 135 of
src/orchestrator.py sits before the `try` block of lines 141-159. -/
theorem c4_counterexample :
    (handle_image_generation_for_characters
        (fun _ => Except.ok [[("name", "Amy"), ("hair", "red")]]) 0 false
        (fun _ => 201) (fun _ => Except.ok ["a1"])
        (Step.mk "s1" "t1" "d1" "generateImagesForCharacters" none false
          "Pending" "q" (some "payload"))).2 =
      Except.error "Insufficient balance for image generation tasks." ∧
    stepUpdates (handle_image_generation_for_characters
        (fun _ => Except.ok [[("name", "Amy"), ("hair", "red")]]) 0 false
        (fun _ => 201) (fun _ => Except.ok ["a1"])
        (Step.mk "s1" "t1" "d1" "generateImagesForCharacters" none false
          "Pending" "q" (some "payload"))).1 = [] :=
  ⟨rfl, rfl⟩

/-- C4 (amended): only exceptions arising inside the `try` block around
the join are caught and funnelled to the `Failed` update; a parse
failure of `input_artifacts` and a balance shortfall occur before the
`try` block and escape the handler without any step update. -/
theorem c4_image_handler_failure_boundary
    (parse : String → Except String (List Character)) (balance : Int)
    (order_success : Bool) (create_status : Nat → Nat)
    (future_outcome : Nat → Except String Artifacts) (step : Step) :
    (∀ e, parse (step.input_artifacts.getD "[]") = Except.error e →
      handle_image_generation_for_characters parse balance order_success
        create_status future_outcome step = ([], Except.error e)) ∧
    (∀ chars, parse (step.input_artifacts.getD "[]") = Except.ok chars →
      balance < Int.ofNat chars.length → order_success = false →
      (handle_image_generation_for_characters parse balance order_success
          create_status future_outcome step).2 =
        Except.error "Insufficient balance for image generation tasks." ∧
      stepUpdates (handle_image_generation_for_characters parse balance
          order_success create_status future_outcome step).1 = []) ∧
    (∀ chars j, parse (step.input_artifacts.getD "[]") = Except.ok chars →
      (¬ balance < Int.ofNat chars.length ∨ order_success = true) →
      j < chars.length →
      (create_status j ≠ 201 ∨ ∃ e, future_outcome j = Except.error e) →
      (handle_image_generation_for_characters parse balance order_success
          create_status future_outcome step).2 = Except.ok () ∧
      Effect.updateStep step.did step.task_id step.step_id
          (StepPatch.mk "Failed" (some "One or more image tasks failed.") none) ∈
        (handle_image_generation_for_characters parse balance order_success
          create_status future_outcome step).1) := by
  refine ⟨?_, ?_, ?_⟩
  · intro e he
    unfold handle_image_generation_for_characters
    rw [he]
  · intro chars hparse hlt ho
    subst ho
    have hlt2 : balance < (chars.length : Int) := hlt
    have hfalse : (ensure_sufficient_balance IMAGE_GENERATOR_PLAN_DID balance
        false (Int.ofNat chars.length)).2 = false := by
      simp [ensure_sufficient_balance, hlt2]
    have hfalseb : (ensure_sufficient_balance IMAGE_GENERATOR_PLAN_DID balance
        false (chars.length : Int)).2 = false := hfalse
    constructor
    · unfold handle_image_generation_for_characters
      rw [hparse]
      simp [hfalse, hfalseb]
    · unfold handle_image_generation_for_characters
      rw [hparse]
      simp [hfalse, hfalseb, stepUpdates, ensure_balance_no_updates]
  · intro chars j hparse hbal hj hfail
    have h2 : (ensure_sufficient_balance IMAGE_GENERATOR_PLAN_DID balance
        order_success (Int.ofNat chars.length)).2 = true :=
      (ensure_balance_result _ _ _ _).2 hbal
    obtain ⟨e2, hg⟩ := launch_delegates_gather_err create_status future_outcome
      step 0 chars j hj (by simpa using hfail)
    rw [handle_image_of_gather_err parse balance order_success create_status
      future_outcome step chars e2 hparse h2 hg]
    exact ⟨rfl, by simp⟩

/-- Witness for C4 (amended): concrete balance shortfall with two
characters, balance 1 and a failed order: the handler raises and writes
no update. -/
theorem c4_image_handler_failure_boundary_witness :
    (handle_image_generation_for_characters
        (fun _ => Except.ok [[("name", "Cal"), ("hat", "tall")],
          [("name", "Di"), ("coat", "long")]]) 1 false (fun _ => 201)
        (fun _ => Except.ok ["z1"])
        (Step.mk "s4" "t4" "d4" "generateImagesForCharacters" none true
          "Pending" "q4" (some "payload"))).2 =
      Except.error "Insufficient balance for image generation tasks." ∧
    stepUpdates (handle_image_generation_for_characters
        (fun _ => Except.ok [[("name", "Cal"), ("hat", "tall")],
          [("name", "Di"), ("coat", "long")]]) 1 false (fun _ => 201)
        (fun _ => Except.ok ["z1"])
        (Step.mk "s4" "t4" "d4" "generateImagesForCharacters" none true
          "Pending" "q4" (some "payload"))).1 = [] :=
  (c4_image_handler_failure_boundary
    (fun _ => Except.ok [[("name", "Cal"), ("hat", "tall")],
      [("name", "Di"), ("coat", "long")]]) 1 false (fun _ => 201)
    (fun _ => Except.ok ["z1"])
    (Step.mk "s4" "t4" "d4" "generateImagesForCharacters" none true
      "Pending" "q4" (some "payload"))).2.1
    [[("name", "Cal"), ("hat", "tall")], [("name", "Di"), ("coat", "long")]]
    rfl (by decide) rfl

/-- Counterexample to C7 as stated: a second terminal `Completed` signal
after the future is settled is not ignored without error — the callback
raises `InvalidStateError` (the source calls `set_result` without
checking `done()`). -/
theorem c7_counterexample :
    (run_callback_seq (fun _ => ["img1"]) "t1" FutureState.unset
        [TaskEvent.mk "task1" (some "Completed") "done",
         TaskEvent.mk "task1" (some "Completed") "done"]).2 =
      [Except.ok (), Except.error "InvalidStateError"] := rfl

/-- C7 (amended): the future is single-assignment — non-terminal events
never resolve it, the first terminal `Completed` resolves it with the
validated artifacts and the first terminal `Failed` with a failure, and
once settled its value never changes — but a later terminal signal makes
the callback raise `InvalidStateError` rather than being ignored without
error. -/
theorem c7_future_single_assignment (validate_task_fn : String → Artifacts)
    (parent_task_id : String) (ev : TaskEvent) (fs : FutureState) :
    (ev.task_status ≠ some "Completed" → ev.task_status ≠ some "Failed" →
      (task_callback validate_task_fn parent_task_id ev fs).2 = Except.ok fs) ∧
    (ev.task_status = some "Completed" →
      (task_callback validate_task_fn parent_task_id ev FutureState.unset).2 =
        Except.ok (FutureState.settled_ok (validate_task_fn ev.task_id))) ∧
    (ev.task_status = some "Failed" →
      (task_callback validate_task_fn parent_task_id ev FutureState.unset).2 =
        Except.ok (FutureState.settled_err "Sub-agent task failed")) ∧
    (fs ≠ FutureState.unset →
      (ev.task_status = some "Completed" ∨ ev.task_status = some "Failed") →
      (task_callback validate_task_fn parent_task_id ev fs).2 =
        Except.error "InvalidStateError") ∧
    (∀ evs, fs ≠ FutureState.unset →
      (run_callback_seq validate_task_fn parent_task_id fs evs).1 = fs) := by
  refine ⟨?_, ?_, ?_, ?_, ?_⟩
  · intro h1 h2
    simp [task_callback, h1, h2]
  · intro h1
    simp [task_callback, h1, future_set_result]
  · intro h1
    simp [task_callback, h1, future_set_exception]
  · intro hne hterm
    rcases hterm with h1 | h1 <;> cases fs <;>
      simp_all [task_callback, future_set_result, future_set_exception]
  · intro evs hne
    induction evs with
    | nil => rfl
    | cons ev2 evs ih =>
      cases h4 : (task_callback validate_task_fn parent_task_id ev2 fs).2 with
      | error e =>
        simp [run_callback_seq, h4, ih]
      | ok fs2 =>
        have h5 := task_callback_preserves_settled validate_task_fn
          parent_task_id ev2 fs hne fs2 h4
        subst h5
        simp [run_callback_seq, h4, ih]

/-- Witness for C7 (amended) at concrete events and future states. -/
theorem c7_future_single_assignment_witness :
    (task_callback (fun _ => ["img1"]) "t1"
        (TaskEvent.mk "x" none "progress") FutureState.unset).2 =
      Except.ok FutureState.unset ∧
    (task_callback (fun _ => ["img1"]) "t1"
        (TaskEvent.mk "x" (some "Completed") "done") FutureState.unset).2 =
      Except.ok (FutureState.settled_ok ["img1"]) ∧
    (task_callback (fun _ => ["img1"]) "t1"
        (TaskEvent.mk "x" (some "Failed") "err")
        (FutureState.settled_ok ["img1"])).2 =
      Except.error "InvalidStateError" ∧
    (run_callback_seq (fun _ => ["img1"]) "t1" (FutureState.settled_ok ["img1"])
        [TaskEvent.mk "x" (some "Failed") "err"]).1 =
      FutureState.settled_ok ["img1"] :=
  ⟨(c7_future_single_assignment (fun _ => ["img1"]) "t1"
      (TaskEvent.mk "x" none "progress") FutureState.unset).1
      (by decide) (by decide),
   (c7_future_single_assignment (fun _ => ["img1"]) "t1"
      (TaskEvent.mk "x" (some "Completed") "done") FutureState.unset).2.1 rfl,
   (c7_future_single_assignment (fun _ => ["img1"]) "t1"
      (TaskEvent.mk "x" (some "Failed") "err")
      (FutureState.settled_ok ["img1"])).2.2.2.1 (by decide) (Or.inr rfl),
   (c7_future_single_assignment (fun _ => ["img1"]) "t1"
      (TaskEvent.mk "x" (some "Failed") "err")
      (FutureState.settled_ok ["img1"])).2.2.2.2
      [TaskEvent.mk "x" (some "Failed") "err"] (by decide)⟩

end MovieOrchestrator
